import Mathlib

/-!
Shallow embedding of `printing_cost/compute_cost.py` (function `image_analysis`)
and proofs about it.

Modelling conventions:
* Python floats are embedded as exact rationals `ℚ`; the one genuinely
  irrational quantity (`np.std`, a square root) is kept as its square
  (the population variance, a rational) inside the computable result, and
  the standard deviation itself is the derived real `Real.sqrt` of it.
* A decoded image (the value of `img_as_ubyte(plt.imread(path))` for a
  two-dimensional grayscale image) is a list of rows of unsigned-byte
  intensity samples.  Image decoding itself is an external collaborator and
  is not modelled; `image_analysis` takes the decoded image directly.
* Python's `/` on numbers raises `ZeroDivisionError` when the denominator
  is zero; this is modelled by `pydiv` returning `Except`.
* Each `print(...)` statement is modelled as one `Line` value carrying the
  numeric data it formats (separator rows of dashes are all `Line.sep`;
  the standard-deviation line carries the variance, whose square root is
  the printed value).  Matplotlib plotting is a side collaborator with no
  influence on the computed values and is not modelled.
* The Python function body has no `return` statement, so the call returns
  `None`; the result record keeps that as `retval : Option CostReport`,
  where `CostReport` is the data model named by the specification.
-/

/-- Exceptions relevant to the analysis call: Python's built-in
`ZeroDivisionError`, and the `ConfigurationError` that the specification's
error taxonomy defines (the source file itself defines no such class). -/
inductive PyError where
  | zeroDivisionError
  | configurationError
deriving DecidableEq, Repr

/-- Python number division `a / b`: raises `ZeroDivisionError` when `b = 0`,
otherwise returns the exact quotient. -/
def pydiv (a b : ℚ) : Except PyError ℚ :=
  if b = 0 then Except.error PyError.zeroDivisionError else Except.ok (a / b)

/-- A decoded two-dimensional unsigned-byte image: a list of rows of
intensity samples (the value numpy exposes after `img_as_ubyte`). -/
structure ImageU8 where
  rows : List (List ℕ)
deriving DecidableEq, Repr

namespace ImageU8

/-- Row count: `img.shape[0]`. -/
def shape0 (img : ImageU8) : ℕ := img.rows.length

/-- Column count: `img.shape[1]` (the length of the first row; numpy
arrays are rectangular, so theorems carry rectangularity as a hypothesis). -/
def shape1 (img : ImageU8) : ℕ := (img.rows.headD []).length

/-- Flattened intensity samples: `img.ravel()`. -/
def ravel (img : ImageU8) : List ℕ := img.rows.flatten

/-- Rectangularity invariant of a numpy 2-d array: every row has the
common length `shape1`. -/
def Rect (img : ImageU8) : Prop := ∀ r ∈ img.rows, r.length = img.shape1

end ImageU8

/-- Embeds `np.mean` over a list of samples, as an exact rational (mean of the
empty list is left as `0/0 = 0`; numpy would produce `nan`, and all
theorems that use the mean assume a nonempty image). -/
def npMean (l : List ℕ) : ℚ := (l.map (Nat.cast : ℕ → ℚ)).sum / l.length

/-- Population variance of a list of samples (the square of `np.std`,
which uses `ddof = 0`). -/
def npVar (l : List ℕ) : ℚ :=
  (l.map (fun x => ((x : ℚ) - npMean l) ^ 2)).sum / l.length

/-- Embeds `np.std` over a list of samples: the square root of the population
variance. -/
noncomputable def npStd (l : List ℕ) : ℝ := Real.sqrt ((npVar l : ℚ) : ℝ)

/-- Embeds `mean_error = std / np.sqrt(len(img.ravel()))`: the standard error of
the mean as computed by the source. -/
noncomputable def meanError (l : List ℕ) : ℝ :=
  npStd l / Real.sqrt (l.length : ℝ)

/-- Embeds `np.min` over a nonempty list of samples (0 on the empty list, where
numpy would raise; theorems assume a nonempty image). -/
def listMin (l : List ℕ) : ℕ :=
  match l with
  | [] => 0
  | x :: xs => xs.foldl Min.min x

/-- Embeds `np.max` over a nonempty list of samples (0 on the empty list, where
numpy would raise; theorems assume a nonempty image). -/
def listMax (l : List ℕ) : ℕ :=
  match l with
  | [] => 0
  | x :: xs => xs.foldl Max.max x

/-- Which option the recommendation names. -/
inductive Cheaper where
  | home
  | shop
deriving DecidableEq, Repr

/-- The specification's `CostReport` data model: coverage percentage,
per-page paper cost, per-page ink cost, total per-page cost, the cheaper
option and the savings.  The source file defines no such class and its
function returns `None`; the record exists so that "returns a CostReport"
is statable. -/
structure CostReport where
  coverage_pct : ℚ
  paper_cost : ℚ
  ink_cost : ℚ
  total_cost : ℚ
  cheaper : Cheaper
  savings : ℚ
deriving DecidableEq, Repr

/-- One `print(...)` statement of `image_analysis`, carrying the numeric
data it formats.  `sep` is a row of dashes; `stdLine` carries the
population variance whose square root is the printed standard deviation. -/
inductive Line where
  | sep
  | imageInfoHeader
  | imageShape (s0 s1 : ℕ)
  | numberOfPixel (n : ℕ)
  | histHeader
  | countsLine (n : ℕ)
  | meanLine (m : ℚ)
  | stdLine (variance : ℚ)
  | minLine (v : ℕ)
  | maxLine (v : ℕ)
  | printHeader
  | grayCover (c : ℚ)
  | costHeader
  | paperCostLine (c : ℚ)
  | inkCostLine (c : ℚ)
  | totalCostLine (c : ℚ)
  | cheaperHome
  | savingHome (copyshop total diff : ℚ)
  | cheaperShop
  | savingShop (total copyshop diff : ℚ)
deriving DecidableEq, Repr

/-- The `if verbose:` block of `image_analysis`: the report sections
(image info, histogram stats, print coverage, cost breakdown), one `Line`
per `print`, in source order. -/
def reportLines (s0 s1 nPixel cnt : ℕ) (mean variance : ℚ) (minv maxv : ℕ)
    (cover paper ink total : ℚ) : List Line :=
  [Line.sep, Line.imageInfoHeader, Line.imageShape s0 s1,
   Line.numberOfPixel nPixel, Line.sep, Line.histHeader,
   Line.countsLine cnt, Line.meanLine mean, Line.stdLine variance,
   Line.minLine minv, Line.maxLine maxv, Line.sep, Line.printHeader,
   Line.grayCover cover, Line.sep, Line.costHeader,
   Line.paperCostLine paper, Line.inkCostLine ink,
   Line.totalCostLine total, Line.sep]

/-- The trailing `if total_cost < copyshop_cost: ... else: ...` of
`image_analysis` (outside the `if verbose:` block): two prints naming the
cheaper option and the saving, in source order. -/
def recommendation (total_cost copyshop_cost : ℚ) : List Line :=
  if total_cost < copyshop_cost then
    [Line.cheaperHome,
     Line.savingHome copyshop_cost total_cost (copyshop_cost - total_cost)]
  else
    [Line.cheaperShop,
     Line.savingShop total_cost copyshop_cost (total_cost - copyshop_cost)]

/-- Everything a call of `image_analysis` computes: the local variables of
the Python function body (with `std` represented by the variance `var`),
the lines written to standard output, and the value returned to the
caller (`retval`, always `none` in the source: no `return` statement). -/
structure AnalysisResult where
  shape0 : ℕ
  shape1 : ℕ
  number_of_pixel : ℕ
  counts : ℕ
  mean : ℚ
  var : ℚ
  min_value : ℕ
  max_value : ℕ
  page_cover : ℚ
  single_page_cost : ℚ
  single_ink_cost : ℚ
  total_cost : ℚ
  out : List Line
  retval : Option CostReport
deriving DecidableEq, Repr

/-- Shallow embedding of `image_analysis(file_path, toner_cost,
toner_npage, stack_paper_cost, stack_npage, copyshop_cost, verbose)` from
`printing_cost/compute_cost.py`, taking the decoded image in place of the
file path.  Statistics are computed first, then the two unguarded
divisions (paper, then ink — Python evaluates
`toner_cost / toner_npage * page_cover / 5.0` left to right), then the
verbose report and the always-printed recommendation. -/
def image_analysis (img : ImageU8) (toner_cost : ℚ) (toner_npage : ℕ)
    (stack_paper_cost : ℚ) (stack_npage : ℕ) (copyshop_cost : ℚ)
    (verbose : Bool) : Except PyError AnalysisResult :=
  let number_of_pixel := img.shape0 * img.shape1
  let counts := img.shape0 * img.shape1
  let mean := npMean img.ravel
  let var := npVar img.ravel
  let min_value := listMin img.ravel
  let max_value := listMax img.ravel
  let page_cover := (1 - mean / 255) * 100
  do
    let single_page_cost ← pydiv stack_paper_cost (stack_npage : ℚ)
    let inkPerPage ← pydiv toner_cost (toner_npage : ℚ)
    let single_ink_cost := inkPerPage * page_cover / 5
    let total_cost := single_page_cost + single_ink_cost
    let verboseOut :=
      if verbose then
        reportLines img.shape0 img.shape1 number_of_pixel counts mean var
          min_value max_value page_cover single_page_cost single_ink_cost
          total_cost
      else []
    Except.ok
      { shape0 := img.shape0
        shape1 := img.shape1
        number_of_pixel := number_of_pixel
        counts := counts
        mean := mean
        var := var
        min_value := min_value
        max_value := max_value
        page_cover := page_cover
        single_page_cost := single_page_cost
        single_ink_cost := single_ink_cost
        total_cost := total_cost
        out := verboseOut ++ recommendation total_cost copyshop_cost
        retval := none }

/-! ### Evaluation lemmas for `image_analysis` -/

/-- The paper-cost expression of the source, as a function of the
parameters (line `single_page_cost = stack_paper_cost / stack_npage`). -/
def paperCostVal (sc : ℚ) (sn : ℕ) : ℚ := sc / (sn : ℚ)

/-- The ink-cost expression of the source, as a function of the mean
(lines `page_cover = (1 - mean/255) * 100` and
`single_ink_cost = toner_cost / toner_npage * page_cover/5.0`). -/
def inkCostVal (tc : ℚ) (tn : ℕ) (cover : ℚ) : ℚ := tc / (tn : ℚ) * cover / 5

/-- Coverage as the source computes it from the mean. -/
def coverVal (mean : ℚ) : ℚ := (1 - mean / 255) * 100

/-- The result record a successful call produces, with every field spelled
as the source expression it comes from. -/
def okResult (img : ImageU8) (tc : ℚ) (tn : ℕ) (sc : ℚ) (sn : ℕ) (cc : ℚ)
    (v : Bool) : AnalysisResult :=
      { shape0 := img.shape0
        shape1 := img.shape1
        number_of_pixel := img.shape0 * img.shape1
        counts := img.shape0 * img.shape1
        mean := npMean img.ravel
        var := npVar img.ravel
        min_value := listMin img.ravel
        max_value := listMax img.ravel
        page_cover := coverVal (npMean img.ravel)
        single_page_cost := paperCostVal sc sn
        single_ink_cost := inkCostVal tc tn (coverVal (npMean img.ravel))
        total_cost := paperCostVal sc sn + inkCostVal tc tn (coverVal (npMean img.ravel))
        out :=
          (if v then
              reportLines img.shape0 img.shape1 (img.shape0 * img.shape1)
                (img.shape0 * img.shape1) (npMean img.ravel) (npVar img.ravel)
                (listMin img.ravel) (listMax img.ravel)
                (coverVal (npMean img.ravel)) (paperCostVal sc sn)
                (inkCostVal tc tn (coverVal (npMean img.ravel)))
                (paperCostVal sc sn + inkCostVal tc tn (coverVal (npMean img.ravel)))
            else []) ++
            recommendation
              (paperCostVal sc sn + inkCostVal tc tn (coverVal (npMean img.ravel))) cc
        retval := none }

/-- When both denominators are nonzero, `image_analysis` succeeds and every
field of the result is the source expression collected in `okResult`. -/
theorem image_analysis_eq_ok (img : ImageU8) (tc : ℚ) (tn : ℕ) (sc : ℚ)
    (sn : ℕ) (cc : ℚ) (v : Bool) (hsn : sn ≠ 0) (htn : tn ≠ 0) :
    image_analysis img tc tn sc sn cc v =
      Except.ok (okResult img tc tn sc sn cc v) := by
  have h1 : ((sn : ℚ)) ≠ 0 := Nat.cast_ne_zero.mpr hsn
  have h2 : ((tn : ℚ)) ≠ 0 := Nat.cast_ne_zero.mpr htn
  simp [image_analysis, okResult, pydiv, h1, h2, paperCostVal, inkCostVal,
    coverVal, Except.bind, bind]

/-- When a denominator is zero, `image_analysis` raises `ZeroDivisionError`
(the stats above the divisions cannot fail). -/
theorem image_analysis_eq_err (img : ImageU8) (tc : ℚ) (tn : ℕ) (sc : ℚ)
    (sn : ℕ) (cc : ℚ) (v : Bool) (h : tn = 0 ∨ sn = 0) :
    image_analysis img tc tn sc sn cc v =
      Except.error PyError.zeroDivisionError := by
  by_cases hsn : sn = 0
  · simp [image_analysis, pydiv, hsn, Except.bind, bind]
  · have h1 : ((sn : ℚ)) ≠ 0 := Nat.cast_ne_zero.mpr hsn
    have htn : tn = 0 := h.resolve_right hsn
    simp [image_analysis, pydiv, h1, htn, Except.bind, bind]

/-! ### Statistics helper lemmas -/

/-- A left fold by `min` is at most its initial value. -/
theorem foldl_min_le_init (xs : List ℕ) (a : ℕ) : xs.foldl Min.min a ≤ a := by
  induction xs generalizing a with
  | nil => exact le_refl a
  | cons y ys ih =>
    calc ys.foldl Min.min (Min.min a y) ≤ Min.min a y := ih _
      _ ≤ a := min_le_left _ _

/-- A left fold by `min` is at most every member of the list. -/
theorem foldl_min_le_mem (xs : List ℕ) (a x : ℕ) (hx : x ∈ xs) :
    xs.foldl Min.min a ≤ x := by
  induction xs generalizing a with
  | nil => exact absurd hx (List.not_mem_nil x)
  | cons y ys ih =>
    rcases List.mem_cons.mp hx with rfl | hx
    · calc ys.foldl Min.min (Min.min a x) ≤ Min.min a x := foldl_min_le_init _ _
        _ ≤ x := min_le_right _ _
    · exact ih _ hx

/-- Lower bound: `np.min` is at most every sample. -/
theorem listMin_le (l : List ℕ) (x : ℕ) (hx : x ∈ l) : listMin l ≤ x := by
  cases l with
  | nil => exact absurd hx (List.not_mem_nil x)
  | cons y ys =>
    rcases List.mem_cons.mp hx with rfl | hx
    · exact foldl_min_le_init ys x
    · exact foldl_min_le_mem ys y x hx

/-- A left fold by `max` is at least its initial value. -/
theorem le_foldl_max_init (xs : List ℕ) (a : ℕ) : a ≤ xs.foldl Max.max a := by
  induction xs generalizing a with
  | nil => exact le_refl a
  | cons y ys ih =>
    calc a ≤ Max.max a y := le_max_left _ _
      _ ≤ ys.foldl Max.max (Max.max a y) := ih _

/-- A left fold by `max` is at least every member of the list. -/
theorem le_foldl_max_mem (xs : List ℕ) (a x : ℕ) (hx : x ∈ xs) :
    x ≤ xs.foldl Max.max a := by
  induction xs generalizing a with
  | nil => exact absurd hx (List.not_mem_nil x)
  | cons y ys ih =>
    rcases List.mem_cons.mp hx with rfl | hx
    · calc x ≤ Max.max a x := le_max_right _ _
        _ ≤ ys.foldl Max.max (Max.max a x) := le_foldl_max_init _ _
    · exact ih _ hx

/-- Upper bound: `np.max` is at least every sample. -/
theorem le_listMax (l : List ℕ) (x : ℕ) (hx : x ∈ l) : x ≤ listMax l := by
  cases l with
  | nil => exact absurd hx (List.not_mem_nil x)
  | cons y ys =>
    rcases List.mem_cons.mp hx with rfl | hx
    · exact le_foldl_max_init ys x
    · exact le_foldl_max_mem ys y x hx

/-- The mean is at most any upper bound of the samples. -/
theorem npMean_le_of_le (l : List ℕ) (c : ℕ) (h : ∀ x ∈ l, x ≤ c) :
    npMean l ≤ (c : ℚ) := by
  rcases eq_or_ne l [] with rfl | hne
  · simp [npMean]
  · have hlen : (0 : ℚ) < (l.length : ℚ) := by
      exact_mod_cast Nat.pos_of_ne_zero (fun h0 => hne (List.eq_nil_of_length_eq_zero h0))
    have hsum : (l.map (Nat.cast : ℕ → ℚ)).sum ≤ (l.map (Nat.cast : ℕ → ℚ)).length • (c : ℚ) := by
      refine List.sum_le_card_nsmul _ _ ?_
      intro x hx
      obtain ⟨y, hy, rfl⟩ := List.mem_map.mp hx
      exact_mod_cast h y hy
    rw [npMean, div_le_iff₀ hlen]
    calc (l.map (Nat.cast : ℕ → ℚ)).sum
        ≤ (l.map (Nat.cast : ℕ → ℚ)).length • (c : ℚ) := hsum
      _ = (c : ℚ) * (l.length : ℚ) := by
          rw [List.length_map, nsmul_eq_mul, mul_comm]

/-- The mean of a nonempty list is at least any lower bound of the
samples. -/
theorem le_npMean_of_le (l : List ℕ) (c : ℕ) (hne : l ≠ [])
    (h : ∀ x ∈ l, c ≤ x) : (c : ℚ) ≤ npMean l := by
  have hlen : (0 : ℚ) < (l.length : ℚ) := by
    exact_mod_cast Nat.pos_of_ne_zero (fun h0 => hne (List.eq_nil_of_length_eq_zero h0))
  have hsum : (l.map (Nat.cast : ℕ → ℚ)).length • (c : ℚ) ≤ (l.map (Nat.cast : ℕ → ℚ)).sum := by
    refine List.card_nsmul_le_sum _ _ ?_
    intro x hx
    obtain ⟨y, hy, rfl⟩ := List.mem_map.mp hx
    exact_mod_cast h y hy
  rw [npMean, le_div_iff₀ hlen]
  calc (c : ℚ) * (l.length : ℚ)
      = (l.map (Nat.cast : ℕ → ℚ)).length • (c : ℚ) := by
        rw [List.length_map, nsmul_eq_mul, mul_comm]
    _ ≤ (l.map (Nat.cast : ℕ → ℚ)).sum := hsum

/-- The mean of a nonempty constant list is that constant. -/
theorem npMean_all_eq (l : List ℕ) (c : ℕ) (hne : l ≠ [])
    (h : ∀ x ∈ l, x = c) : npMean l = (c : ℚ) :=
  le_antisymm (npMean_le_of_le l c fun x hx => le_of_eq (h x hx))
    (le_npMean_of_le l c hne fun x hx => le_of_eq (h x hx).symm)

/-- For a rectangular image, the flattened sample list has exactly
`shape0 * shape1` entries. -/
theorem ravel_length (img : ImageU8) (hrect : img.Rect) :
    img.ravel.length = img.shape0 * img.shape1 := by
  rw [ImageU8.ravel, List.length_flatten]
  have hmap : img.rows.map List.length =
      List.replicate img.rows.length img.shape1 := by
    refine List.eq_replicate_iff.mpr ⟨by simp, ?_⟩
    intro b hb
    obtain ⟨r, hr, rfl⟩ := List.mem_map.mp hb
    exact hrect r hr
  rw [hmap, List.sum_replicate, smul_eq_mul, ImageU8.shape0]

/-- Inversion: a successful call forces both denominators nonzero and pins
down the whole result as `okResult`. -/
theorem image_analysis_ok_inv (img : ImageU8) (tc : ℚ) (tn : ℕ) (sc : ℚ)
    (sn : ℕ) (cc : ℚ) (v : Bool) (r : AnalysisResult)
    (h : image_analysis img tc tn sc sn cc v = Except.ok r) :
    sn ≠ 0 ∧ tn ≠ 0 ∧ r = okResult img tc tn sc sn cc v := by
  have hsn : sn ≠ 0 := by
    intro h0
    rw [image_analysis_eq_err img tc tn sc sn cc v (Or.inr h0)] at h
    exact Except.noConfusion h
  have htn : tn ≠ 0 := by
    intro h0
    rw [image_analysis_eq_err img tc tn sc sn cc v (Or.inl h0)] at h
    exact Except.noConfusion h
  rw [image_analysis_eq_ok img tc tn sc sn cc v hsn htn] at h
  exact ⟨hsn, htn, (Except.ok.inj h).symm⟩

/-- Uniform all-white 1×1 test image. -/
def iW : ImageU8 := ⟨[[255]]⟩

/-- Uniform all-black 1×1 test image. -/
def iB : ImageU8 := ⟨[[0]]⟩

/-- A 2×2 test image. -/
def iQ : ImageU8 := ⟨[[0, 255], [10, 20]]⟩

/-- The 1×500 test image with mean exactly 114.758
(379 pixels at 115 and 121 at 114; 379·115 + 121·114 = 57379). -/
def img8 : ImageU8 := ⟨[List.replicate 379 115 ++ List.replicate 121 114]⟩

/-! ### Claims -/

/-- C1, counterexample: on a concrete call with `stack_npage = 0` the code
raises Python's `ZeroDivisionError`, which is not the specification's
`ConfigurationError` (no such exception exists in the source). -/
theorem zero_stack_raises_zeroDivision_not_configuration :
    image_analysis ⟨[[114]]⟩ 15 1000 5 0 (7/200) true =
      Except.error PyError.zeroDivisionError ∧
    (Except.error PyError.zeroDivisionError :
        Except PyError AnalysisResult) ≠
      Except.error PyError.configurationError := by
  constructor
  · exact image_analysis_eq_err _ _ _ _ _ _ _ (Or.inr rfl)
  · intro hcontra
    exact PyError.noConfusion (Except.error.inj hcontra)

/-- C1, amended: a call with `toner_npage = 0` or `stack_npage = 0` raises
`ZeroDivisionError` (the unguarded division), not a defined
`ConfigurationError`; no cost value — in particular no NaN/Infinity — is
produced. -/
theorem zero_denominator_raises_zeroDivision (img : ImageU8) (tc : ℚ)
    (tn : ℕ) (sc : ℚ) (sn : ℕ) (cc : ℚ) (v : Bool) (h : tn = 0 ∨ sn = 0) :
    image_analysis img tc tn sc sn cc v =
      Except.error PyError.zeroDivisionError :=
  image_analysis_eq_err img tc tn sc sn cc v h

/-- C1, witness: the amended theorem at a concrete zero-yield call. -/
theorem zero_denominator_raises_zeroDivision_witness :
    image_analysis iW 15 0 5 500 (7/200) true =
      Except.error PyError.zeroDivisionError :=
  zero_denominator_raises_zeroDivision iW 15 0 5 500 (7/200) true (Or.inl rfl)

/-- C2, counterexample: a concrete successful call returns `None`
(`retval = none`), not a `CostReport` value. -/
theorem analyze_retval_none_at_concrete_call :
    (image_analysis iW 15 1000 5 500 (7/200) false).map
      AnalysisResult.retval = Except.ok none := by
  rw [image_analysis_eq_ok iW 15 1000 5 500 (7/200) false
    (by decide) (by decide)]
  rfl

/-- C2, amended: every successful call computes the `CostReport`
components (coverage from the mean, total = paper + ink) and prints the
recommendation, but returns `None` to the caller rather than a
`CostReport` value. -/
theorem analyze_returns_none_not_report (img : ImageU8) (tc : ℚ) (tn : ℕ)
    (sc : ℚ) (sn : ℕ) (cc : ℚ) (v : Bool) (r : AnalysisResult)
    (h : image_analysis img tc tn sc sn cc v = Except.ok r) :
    r.retval = none ∧
    r.page_cover = (1 - r.mean / 255) * 100 ∧
    r.total_cost = r.single_page_cost + r.single_ink_cost ∧
    (∃ pre, r.out = pre ++ recommendation r.total_cost cc) := by
  obtain ⟨hsn, htn, rfl⟩ := image_analysis_ok_inv img tc tn sc sn cc v r h
  refine ⟨rfl, ?_, rfl, ?_⟩
  · simp [okResult, coverVal]
  · exact ⟨_, rfl⟩

/-- C2, witness: the amended theorem at a concrete successful call. -/
theorem analyze_returns_none_not_report_witness :
    (okResult iW 15 1000 5 500 (7/200) false).retval = none ∧
    (okResult iW 15 1000 5 500 (7/200) false).page_cover =
      (1 - (okResult iW 15 1000 5 500 (7/200) false).mean / 255) * 100 ∧
    (okResult iW 15 1000 5 500 (7/200) false).total_cost =
      (okResult iW 15 1000 5 500 (7/200) false).single_page_cost +
        (okResult iW 15 1000 5 500 (7/200) false).single_ink_cost ∧
    (∃ pre, (okResult iW 15 1000 5 500 (7/200) false).out =
      pre ++ recommendation
        (okResult iW 15 1000 5 500 (7/200) false).total_cost (7/200)) :=
  analyze_returns_none_not_report iW 15 1000 5 500 (7/200) false
    (okResult iW 15 1000 5 500 (7/200) false)
    (image_analysis_eq_ok iW 15 1000 5 500 (7/200) false
      (by decide) (by decide))

/-- C3: on every successful call the coverage is `(1 - mean/255) * 100`;
an all-white image gives coverage 0 and ink cost 0; an all-black image
gives coverage 100 and, with a positive yield, ink cost
`toner_cost / toner_npage * 20`. -/
theorem coverage_formula_white_black (img : ImageU8) (tc : ℚ) (tn : ℕ)
    (sc : ℚ) (sn : ℕ) (cc : ℚ) (v : Bool) (r : AnalysisResult)
    (h : image_analysis img tc tn sc sn cc v = Except.ok r)
    (hne : img.ravel ≠ []) :
    r.page_cover = (1 - r.mean / 255) * 100 ∧
    ((∀ x ∈ img.ravel, x = 255) →
      r.page_cover = 0 ∧ r.single_ink_cost = 0) ∧
    ((∀ x ∈ img.ravel, x = 0) →
      r.page_cover = 100 ∧
        (0 < tn → r.single_ink_cost = tc / (tn : ℚ) * 20)) := by
  obtain ⟨hsn, htn, rfl⟩ := image_analysis_ok_inv img tc tn sc sn cc v r h
  refine ⟨by simp [okResult, coverVal], ?_, ?_⟩
  · intro hwhite
    have hm : npMean img.ravel = (255 : ℚ) := npMean_all_eq _ 255 hne hwhite
    constructor
    · show coverVal (npMean img.ravel) = 0
      rw [hm, coverVal]
      norm_num
    · show inkCostVal tc tn (coverVal (npMean img.ravel)) = 0
      rw [hm, coverVal, inkCostVal]
      norm_num
  · intro hblack
    have hm : npMean img.ravel = (0 : ℚ) := by
      simpa using npMean_all_eq _ 0 hne hblack
    constructor
    · show coverVal (npMean img.ravel) = 100
      rw [hm, coverVal]
      norm_num
    · intro _
      show inkCostVal tc tn (coverVal (npMean img.ravel)) = tc / (tn : ℚ) * 20
      rw [hm, coverVal, inkCostVal]
      ring
/-- C3, witness: the theorem at the concrete all-white call. -/
theorem coverage_formula_white_black_witness :
    (okResult iW 15 1000 5 500 (7/200) true).page_cover =
      (1 - (okResult iW 15 1000 5 500 (7/200) true).mean / 255) * 100 ∧
    ((∀ x ∈ iW.ravel, x = 255) →
      (okResult iW 15 1000 5 500 (7/200) true).page_cover = 0 ∧
      (okResult iW 15 1000 5 500 (7/200) true).single_ink_cost = 0) ∧
    ((∀ x ∈ iW.ravel, x = 0) →
      (okResult iW 15 1000 5 500 (7/200) true).page_cover = 100 ∧
        (0 < 1000 →
          (okResult iW 15 1000 5 500 (7/200) true).single_ink_cost =
            15 / ((1000 : ℕ) : ℚ) * 20)) :=
  coverage_formula_white_black iW 15 1000 5 500 (7/200) true
    (okResult iW 15 1000 5 500 (7/200) true)
    (image_analysis_eq_ok iW 15 1000 5 500 (7/200) true
      (by decide) (by decide))
    (by decide)

/-- C4: on every successful call over a nonempty rectangular image,
pixel count = rows × columns and also equals the number of flattened
samples the statistics range over; the result's mean and variance are the
flattened-sample statistics; the standard deviation is nonnegative; the
standard error of the mean is `std / sqrt(pixel count)`; and
`min ≤ mean ≤ max`. -/
theorem histogram_stats_identities (img : ImageU8) (tc : ℚ) (tn : ℕ)
    (sc : ℚ) (sn : ℕ) (cc : ℚ) (v : Bool) (r : AnalysisResult)
    (h : image_analysis img tc tn sc sn cc v = Except.ok r)
    (hrect : img.Rect) (hne : img.ravel ≠ []) :
    r.number_of_pixel = img.shape0 * img.shape1 ∧
    r.counts = img.shape0 * img.shape1 ∧
    img.ravel.length = img.shape0 * img.shape1 ∧
    r.mean = npMean img.ravel ∧
    r.var = npVar img.ravel ∧
    (0 : ℝ) ≤ npStd img.ravel ∧
    meanError img.ravel =
      npStd img.ravel / Real.sqrt (((img.shape0 * img.shape1 : ℕ)) : ℝ) ∧
    (r.min_value : ℚ) ≤ r.mean ∧ r.mean ≤ (r.max_value : ℚ) := by
  obtain ⟨hsn, htn, rfl⟩ := image_analysis_ok_inv img tc tn sc sn cc v r h
  refine ⟨rfl, rfl, ravel_length img hrect, rfl, rfl, Real.sqrt_nonneg _,
    ?_, ?_, ?_⟩
  · rw [meanError, ravel_length img hrect]
  · exact le_npMean_of_le img.ravel (listMin img.ravel) hne
      (fun x hx => listMin_le img.ravel x hx)
  · exact npMean_le_of_le img.ravel (listMax img.ravel)
      (fun x hx => le_listMax img.ravel x hx)
/-- C4, witness: the theorem at a concrete 2×2 call. -/
theorem histogram_stats_identities_witness :
    (okResult iQ 15 1000 5 500 (7/200) true).number_of_pixel =
      iQ.shape0 * iQ.shape1 ∧
    (okResult iQ 15 1000 5 500 (7/200) true).counts =
      iQ.shape0 * iQ.shape1 ∧
    iQ.ravel.length = iQ.shape0 * iQ.shape1 ∧
    (okResult iQ 15 1000 5 500 (7/200) true).mean = npMean iQ.ravel ∧
    (okResult iQ 15 1000 5 500 (7/200) true).var = npVar iQ.ravel ∧
    (0 : ℝ) ≤ npStd iQ.ravel ∧
    meanError iQ.ravel =
      npStd iQ.ravel / Real.sqrt (((iQ.shape0 * iQ.shape1 : ℕ)) : ℝ) ∧
    ((okResult iQ 15 1000 5 500 (7/200) true).min_value : ℚ) ≤
      (okResult iQ 15 1000 5 500 (7/200) true).mean ∧
    (okResult iQ 15 1000 5 500 (7/200) true).mean ≤
      ((okResult iQ 15 1000 5 500 (7/200) true).max_value : ℚ) :=
  histogram_stats_identities iQ 15 1000 5 500 (7/200) true
    (okResult iQ 15 1000 5 500 (7/200) true)
    (image_analysis_eq_ok iQ 15 1000 5 500 (7/200) true
      (by decide) (by decide))
    (by unfold ImageU8.Rect; decide) (by decide)

/-- C5: on every successful call the recommendation compares the total
cost to the copy-shop price, names the home option exactly when
`total_cost < copyshop_cost` and the shop option otherwise, and the
printed saving equals `|total_cost - copyshop_cost|` (nonnegative) in
both branches; the recommendation is part of what the call prints. -/
theorem recommendation_cheaper_abs_savings (img : ImageU8) (tc : ℚ)
    (tn : ℕ) (sc : ℚ) (sn : ℕ) (cc : ℚ) (v : Bool) (r : AnalysisResult)
    (h : image_analysis img tc tn sc sn cc v = Except.ok r) :
    (r.total_cost < cc →
      recommendation r.total_cost cc =
        [Line.cheaperHome, Line.savingHome cc r.total_cost
          |r.total_cost - cc|]) ∧
    (¬ r.total_cost < cc →
      recommendation r.total_cost cc =
        [Line.cheaperShop, Line.savingShop r.total_cost cc
          |r.total_cost - cc|]) ∧
    0 ≤ |r.total_cost - cc| ∧
    (∃ pre, r.out = pre ++ recommendation r.total_cost cc) := by
  obtain ⟨hsn, htn, rfl⟩ := image_analysis_ok_inv img tc tn sc sn cc v r h
  refine ⟨?_, ?_, abs_nonneg _, ⟨_, rfl⟩⟩
  · intro hlt
    have habs : |(okResult img tc tn sc sn cc v).total_cost - cc| =
        cc - (okResult img tc tn sc sn cc v).total_cost := by
      rw [abs_of_neg (sub_neg.mpr hlt), neg_sub]
    rw [recommendation, if_pos hlt, habs]
  · intro hge
    have habs : |(okResult img tc tn sc sn cc v).total_cost - cc| =
        (okResult img tc tn sc sn cc v).total_cost - cc :=
      abs_of_nonneg (sub_nonneg.mpr (not_lt.mp hge))
    rw [recommendation, if_neg hge, habs]
/-- C5, witness: the theorem at a concrete call (home branch applies:
total cost 0.01 < 0.035). -/
theorem recommendation_cheaper_abs_savings_witness :
    ((okResult iW 15 1000 5 500 (7/200) true).total_cost < 7/200 →
      recommendation (okResult iW 15 1000 5 500 (7/200) true).total_cost
          (7/200) =
        [Line.cheaperHome, Line.savingHome (7/200)
          (okResult iW 15 1000 5 500 (7/200) true).total_cost
          |(okResult iW 15 1000 5 500 (7/200) true).total_cost - 7/200|]) ∧
    (¬ (okResult iW 15 1000 5 500 (7/200) true).total_cost < 7/200 →
      recommendation (okResult iW 15 1000 5 500 (7/200) true).total_cost
          (7/200) =
        [Line.cheaperShop, Line.savingShop
          (okResult iW 15 1000 5 500 (7/200) true).total_cost (7/200)
          |(okResult iW 15 1000 5 500 (7/200) true).total_cost - 7/200|]) ∧
    0 ≤ |(okResult iW 15 1000 5 500 (7/200) true).total_cost - 7/200| ∧
    (∃ pre, (okResult iW 15 1000 5 500 (7/200) true).out =
      pre ++ recommendation
        (okResult iW 15 1000 5 500 (7/200) true).total_cost (7/200)) :=
  recommendation_cheaper_abs_savings iW 15 1000 5 500 (7/200) true
    (okResult iW 15 1000 5 500 (7/200) true)
    (image_analysis_eq_ok iW 15 1000 5 500 (7/200) true
      (by decide) (by decide))

/-- C6, counterexample: a concrete call with `verbose = false` still
writes the recommendation section to standard output (the trailing
comparison sits outside the `if verbose:` block), so it is false that no
report section is emitted when verbose is false. -/
theorem recommendation_printed_when_not_verbose :
    (image_analysis iW 15 1000 5 500 (7/200) false).map
        AnalysisResult.out =
      Except.ok [Line.cheaperHome,
        Line.savingHome (7/200) (1/100) (7/200 - 1/100)] := by
  rw [image_analysis_eq_ok iW 15 1000 5 500 (7/200) false
    (by decide) (by decide)]
  show Except.ok (okResult iW 15 1000 5 500 (7/200) false).out = _
  norm_num [okResult, recommendation, iW, ImageU8.ravel, npMean,
    paperCostVal, inkCostVal, coverVal]
/-- C6, amended: the image-info, histogram, coverage and cost sections are
emitted if and only if `verbose` is true, but the recommendation section
is written to standard output on every call, `verbose` or not. -/
theorem report_sections_iff_verbose (img : ImageU8) (tc : ℚ) (tn : ℕ)
    (sc : ℚ) (sn : ℕ) (cc : ℚ) (v : Bool) (r : AnalysisResult)
    (h : image_analysis img tc tn sc sn cc v = Except.ok r) :
    (v = true →
      r.out = reportLines r.shape0 r.shape1 r.number_of_pixel r.counts
          r.mean r.var r.min_value r.max_value r.page_cover
          r.single_page_cost r.single_ink_cost r.total_cost ++
        recommendation r.total_cost cc) ∧
    (v = false → r.out = recommendation r.total_cost cc) := by
  obtain ⟨hsn, htn, rfl⟩ := image_analysis_ok_inv img tc tn sc sn cc v r h
  cases v with
  | false =>
    refine ⟨fun hv => Bool.noConfusion hv, fun _ => ?_⟩
    simp [okResult]
  | true =>
    refine ⟨fun _ => ?_, fun hv => Bool.noConfusion hv⟩
    simp [okResult]
/-- C6, witness: the amended theorem at a concrete verbose call. -/
theorem report_sections_iff_verbose_witness :
    (true = true →
      (okResult iW 15 1000 5 500 (7/200) true).out =
        reportLines (okResult iW 15 1000 5 500 (7/200) true).shape0
            (okResult iW 15 1000 5 500 (7/200) true).shape1
            (okResult iW 15 1000 5 500 (7/200) true).number_of_pixel
            (okResult iW 15 1000 5 500 (7/200) true).counts
            (okResult iW 15 1000 5 500 (7/200) true).mean
            (okResult iW 15 1000 5 500 (7/200) true).var
            (okResult iW 15 1000 5 500 (7/200) true).min_value
            (okResult iW 15 1000 5 500 (7/200) true).max_value
            (okResult iW 15 1000 5 500 (7/200) true).page_cover
            (okResult iW 15 1000 5 500 (7/200) true).single_page_cost
            (okResult iW 15 1000 5 500 (7/200) true).single_ink_cost
            (okResult iW 15 1000 5 500 (7/200) true).total_cost ++
          recommendation
            (okResult iW 15 1000 5 500 (7/200) true).total_cost (7/200)) ∧
    (true = false →
      (okResult iW 15 1000 5 500 (7/200) true).out =
        recommendation
          (okResult iW 15 1000 5 500 (7/200) true).total_cost (7/200)) :=
  report_sections_iff_verbose iW 15 1000 5 500 (7/200) true
    (okResult iW 15 1000 5 500 (7/200) true)
    (image_analysis_eq_ok iW 15 1000 5 500 (7/200) true
      (by decide) (by decide))

/-- C10: when the total per-page cost exactly equals the copy-shop price,
the comparison takes the `else` branch: the call prints "Cheaper to print
at the shop!" with a saving of exactly 0. -/
theorem tie_goes_to_shop (img : ImageU8) (tc : ℚ) (tn : ℕ) (sc : ℚ)
    (sn : ℕ) (cc : ℚ) (v : Bool) (r : AnalysisResult)
    (h : image_analysis img tc tn sc sn cc v = Except.ok r)
    (heq : r.total_cost = cc) :
    recommendation r.total_cost cc =
      [Line.cheaperShop, Line.savingShop cc cc 0] ∧
    (∃ pre, r.out = pre ++ [Line.cheaperShop, Line.savingShop cc cc 0]) := by
  obtain ⟨hsn, htn, rfl⟩ := image_analysis_ok_inv img tc tn sc sn cc v r h
  have hrec : recommendation (okResult img tc tn sc sn cc v).total_cost cc =
      [Line.cheaperShop, Line.savingShop cc cc 0] := by
    rw [recommendation, if_neg (heq ▸ lt_irrefl cc), heq, sub_self]
  refine ⟨hrec, ?_⟩
  obtain ⟨pre, hpre⟩ : ∃ pre, (okResult img tc tn sc sn cc v).out =
      pre ++ recommendation (okResult img tc tn sc sn cc v).total_cost cc :=
    ⟨_, rfl⟩
  exact ⟨pre, by rw [hpre, hrec]⟩
/-- C10, witness: a concrete tie — all-white image, paper cost 0.01, ink
cost 0, copy-shop price 0.01. -/
theorem tie_goes_to_shop_witness :
    recommendation (okResult iW 15 1000 5 500 (1/100) true).total_cost
        (1/100) =
      [Line.cheaperShop, Line.savingShop (1/100) (1/100) 0] ∧
    (∃ pre, (okResult iW 15 1000 5 500 (1/100) true).out =
      pre ++ [Line.cheaperShop, Line.savingShop (1/100) (1/100) 0]) :=
  tie_goes_to_shop iW 15 1000 5 500 (1/100) true
    (okResult iW 15 1000 5 500 (1/100) true)
    (image_analysis_eq_ok iW 15 1000 5 500 (1/100) true
      (by decide) (by decide))
    (by norm_num [okResult, iW, ImageU8.ravel, npMean, paperCostVal,
      inkCostVal, coverVal])

/-- C7: with the toner cost nonnegative and the other parameters fixed,
the total per-page cost is monotonically non-decreasing in the coverage:
two successful calls whose coverages compare as `c1 ≤ c2` have total
costs comparing the same way. -/
theorem total_cost_monotone_in_coverage (i1 i2 : ImageU8) (tc : ℚ)
    (tn : ℕ) (sc : ℚ) (sn : ℕ) (cc : ℚ) (v : Bool)
    (r1 r2 : AnalysisResult)
    (h1 : image_analysis i1 tc tn sc sn cc v = Except.ok r1)
    (h2 : image_analysis i2 tc tn sc sn cc v = Except.ok r2)
    (htc : 0 ≤ tc) (hcov : r1.page_cover ≤ r2.page_cover) :
    r1.total_cost ≤ r2.total_cost := by
  obtain ⟨hsn, htn, rfl⟩ := image_analysis_ok_inv i1 tc tn sc sn cc v r1 h1
  obtain ⟨-, -, rfl⟩ := image_analysis_ok_inv i2 tc tn sc sn cc v r2 h2
  have hq : (0 : ℚ) ≤ tc / (tn : ℚ) := div_nonneg htc (Nat.cast_nonneg tn)
  have hcov' : coverVal (npMean i1.ravel) ≤ coverVal (npMean i2.ravel) := hcov
  show paperCostVal sc sn + inkCostVal tc tn (coverVal (npMean i1.ravel)) ≤
    paperCostVal sc sn + inkCostVal tc tn (coverVal (npMean i2.ravel))
  refine add_le_add_left ?_ _
  rw [inkCostVal, inkCostVal]
  exact div_le_div_of_nonneg_right
    (mul_le_mul_of_nonneg_left hcov' hq) (by norm_num)
/-- C7, witness: the theorem at concrete white (coverage 0) and black
(coverage 100) calls. -/
theorem total_cost_monotone_in_coverage_witness :
    (okResult iW 15 1000 5 500 (7/200) true).total_cost ≤
      (okResult iB 15 1000 5 500 (7/200) true).total_cost :=
  total_cost_monotone_in_coverage iW iB 15 1000 5 500 (7/200) true
    (okResult iW 15 1000 5 500 (7/200) true)
    (okResult iB 15 1000 5 500 (7/200) true)
    (image_analysis_eq_ok iW 15 1000 5 500 (7/200) true
      (by decide) (by decide))
    (image_analysis_eq_ok iB 15 1000 5 500 (7/200) true
      (by decide) (by decide))
    (by norm_num)
    (by norm_num [okResult, coverVal, iW, iB, ImageU8.ravel, npMean])

/-- C9: the analysis is deterministic — two calls with equal images and
equal parameter values produce equal results (the embedding shares and
mutates no state across calls). -/
theorem analyze_deterministic (img img' : ImageU8) (tc tc' : ℚ)
    (tn tn' : ℕ) (sc sc' : ℚ) (sn sn' : ℕ) (cc cc' : ℚ) (v v' : Bool)
    (himg : img = img') (htc : tc = tc') (htn : tn = tn') (hsc : sc = sc')
    (hsn : sn = sn') (hcc : cc = cc') (hv : v = v') :
    image_analysis img tc tn sc sn cc v =
      image_analysis img' tc' tn' sc' sn' cc' v' := by
  subst himg htc htn hsc hsn hcc hv
  rfl
/-- C9, witness: the theorem at two identical concrete calls. -/
theorem analyze_deterministic_witness :
    image_analysis iQ 15 1000 5 500 (7/200) true =
      image_analysis iQ 15 1000 5 500 (7/200) true :=
  analyze_deterministic iQ iQ 15 15 1000 1000 5 5 500 500 (7/200) (7/200)
    true true rfl rfl rfl rfl rfl rfl rfl

/-- The flattened `img8` sample list, spelled out. -/
theorem img8_ravel :
    img8.ravel = List.replicate 379 115 ++ List.replicate 121 114 := by
  show ([List.replicate 379 115 ++ List.replicate 121 114] :
      List (List ℕ)).flatten = _
  rw [List.flatten_cons, List.flatten_nil, List.append_nil]

/-- The mean of `img8` is exactly 114.758. -/
theorem npMean_img8 : npMean img8.ravel = 57379 / 500 := by
  rw [npMean, img8_ravel]
  simp only [List.map_append, List.map_replicate, List.sum_append,
    List.sum_replicate, List.length_append, List.length_replicate,
    nsmul_eq_mul]
  norm_num

/-- C8: the reference call (`toner_cost=15, toner_npage=1000,
stack_paper_cost=5, stack_npage=500, copyshop_cost=0.035`) on an image
with mean intensity exactly 114.758 yields coverage ≈ 54.997 %, paper
cost 0.010, ink cost ≈ 0.165, total ≈ 0.175, the shop recommendation,
and savings ≈ 0.140 (all approximations within 0.001). -/
theorem lena_reference_values :
    ∃ r, image_analysis img8 15 1000 5 500 (7/200) true = Except.ok r ∧
      r.mean = 114758 / 1000 ∧
      |r.page_cover - 54997 / 1000| ≤ 1 / 1000 ∧
      r.single_page_cost = 10 / 1000 ∧
      |r.single_ink_cost - 165 / 1000| ≤ 1 / 1000 ∧
      |r.total_cost - 175 / 1000| ≤ 1 / 1000 ∧
      ¬ r.total_cost < 7 / 200 ∧
      recommendation r.total_cost (7 / 200) =
        [Line.cheaperShop,
         Line.savingShop r.total_cost (7 / 200) (r.total_cost - 7 / 200)] ∧
      |r.total_cost - 7 / 200 - 140 / 1000| ≤ 1 / 1000 := by
  have hmean : npMean img8.ravel = 57379 / 500 := npMean_img8
  have hnot : ¬ paperCostVal 5 500 +
      inkCostVal 15 1000 (coverVal (npMean img8.ravel)) < 7 / 200 := by
    rw [hmean, paperCostVal, inkCostVal, coverVal]
    norm_num
  refine ⟨okResult img8 15 1000 5 500 (7/200) true,
    image_analysis_eq_ok img8 15 1000 5 500 (7/200) true
      (by decide) (by decide), ?_, ?_, ?_, ?_, ?_, ?_, ?_, ?_⟩
  · show npMean img8.ravel = 114758 / 1000
    rw [hmean]
    norm_num
  · show |coverVal (npMean img8.ravel) - 54997 / 1000| ≤ 1 / 1000
    rw [hmean, coverVal, abs_le]
    constructor <;> norm_num
  · show paperCostVal 5 500 = 10 / 1000
    rw [paperCostVal]
    norm_num
  · show |inkCostVal 15 1000 (coverVal (npMean img8.ravel)) - 165 / 1000| ≤
      1 / 1000
    rw [hmean, inkCostVal, coverVal, abs_le]
    constructor <;> norm_num
  · show |paperCostVal 5 500 +
        inkCostVal 15 1000 (coverVal (npMean img8.ravel)) - 175 / 1000| ≤
      1 / 1000
    rw [hmean, paperCostVal, inkCostVal, coverVal, abs_le]
    constructor <;> norm_num
  · exact hnot
  · show recommendation (paperCostVal 5 500 +
        inkCostVal 15 1000 (coverVal (npMean img8.ravel))) (7/200) = _
    rw [recommendation, if_neg hnot]
    rfl
  · show |paperCostVal 5 500 +
        inkCostVal 15 1000 (coverVal (npMean img8.ravel)) - 7 / 200 -
        140 / 1000| ≤ 1 / 1000
    rw [hmean, paperCostVal, inkCostVal, coverVal, abs_le]
    constructor <;> norm_num
